import Mathlib

/-
Verification of the enhancement-session engine, usage ledger and video
polling loop of the GenBoard repository, shallowly embedded in Lean 4.
Python dictionaries are modelled as insertion-ordered association lists,
timestamps as natural numbers, and the external generative gateway as an
explicit parameter: none models an absent client, some (Except.ok t)
models a call returning text t, and some (Except.error e) models a call
raising an exception with message e.
-/

namespace GenBoard

/-- Python dict write d[k] = v : update in place if the key exists,
otherwise append at the end (insertion order preserved). -/
def dictSet (d : List (String × String)) (k v : String) : List (String × String) :=
  if d.any (fun p => p.1 = k) then
    d.map (fun p => if p.1 = k then (k, v) else p)
  else
    d ++ [(k, v)]

/-- Python dict read d.get(k) returning an optional value. -/
def dictGet (d : List (String × String)) (k : String) : Option String :=
  (d.find? (fun p => p.1 = k)).map (fun p => p.2)

/-- One entry of the iteration history: timestamp, action tag, optional
stage tag, and a string-keyed payload, as appended in prompt_enhancing.py. -/
structure HistoryEntry where
  timestamp : Nat
  action : String
  stage : Option String
  data : List (String × String)
  deriving Repr, DecidableEq

/-- The enhancement session dictionary created by init_enhancement_session:
keys active, current_stage, stages_data, iteration_history, start_time,
final_prompt. -/
structure Session where
  active : Bool
  current_stage : String
  stages_data : List (String × String)
  iteration_history : List HistoryEntry
  start_time : Option Nat
  final_prompt : Option String
  deriving Repr, DecidableEq

/-- The fresh session installed by init_enhancement_session when no
session exists yet. -/
def initSession : Session :=
  { active := false
    current_stage := "concept"
    stages_data := []
    iteration_history := []
    start_time := none
    final_prompt := none }

/-- The fixed stage ordering: the keys of REFINEMENT_STAGES in insertion
order. -/
def stageList : List String := ["concept", "mood", "subjects", "visual", "polish"]

/-- Python str.strip on the character list: drop leading and trailing
whitespace. -/
def strip_chars (l : List Char) : List Char :=
  ((l.dropWhile Char.isWhitespace).reverse.dropWhile Char.isWhitespace).reverse

/-- Python str.strip: remove leading and trailing whitespace. -/
def py_strip (s : String) : String := String.mk (strip_chars s.data)

/-- get_enhancement_suggestion: forwards the gateway reply, and on an
exception catches it and returns an error-carrying string. -/
def get_enhancement_suggestion (gw : Except String String) : String :=
  match gw with
  | Except.ok content => content
  | Except.error e => "Error getting suggestion: " ++ e

/-- generate_final_prompt: returns the stripped gateway reply, and on an
exception catches it and returns an error-carrying string. -/
def generate_final_prompt (gw : Except String String) : String :=
  match gw with
  | Except.ok content => py_strip content
  | Except.error e => "Error generating final prompt: " ++ e

/-- start_enhancement_flow: session.update replacing all six fields with a
fresh active session holding the initial idea and a single
session_started history entry. -/
def start_enhancement_flow (initial_idea : String) (now : Nat) (_s : Session) : Session :=
  { active := true
    current_stage := "concept"
    stages_data := [("initial_idea", initial_idea)]
    iteration_history := [{ timestamp := now
                            action := "session_started"
                            stage := none
                            data := [("initial_idea", initial_idea)] }]
    start_time := some now
    final_prompt := none }

/-- Result of one process_stage_input call: the mutated session, the value
returned to the caller, and whether the external gateway was invoked. -/
structure StageResult where
  session : Session
  suggestion : Option String
  gateway_called : Bool
  deriving Repr, DecidableEq

/-- process_stage_input: writes stages_data[stage], appends a
stage_completed history entry, and when use_ai is set and a client is
present calls the gateway and appends an ai_suggestion history entry with
whatever string came back (the error-carrying string included). -/
def process_stage_input (stage user_input : String) (use_ai : Bool)
    (client : Option (Except String String)) (now : Nat) (s : Session) : StageResult :=
  let s1 : Session :=
    { s with
      stages_data := dictSet s.stages_data stage user_input
      iteration_history := s.iteration_history ++
        [{ timestamp := now
           action := "stage_completed"
           stage := some stage
           data := [("user_input", user_input)] }] }
  match use_ai, client with
  | true, some gw =>
    let sug := get_enhancement_suggestion gw
    { session :=
        { s1 with
          iteration_history := s1.iteration_history ++
            [{ timestamp := now
               action := "ai_suggestion"
               stage := some stage
               data := [("suggestion", sug)] }] }
      suggestion := some sug
      gateway_called := true }
  | _, _ => { session := s1, suggestion := none, gateway_called := false }

/-- The submit interaction as wired in render_current_stage: the Next
button is disabled unless user_input.strip() is truthy and the handler
re-checks the same guard before calling process_stage_input, so a
whitespace-only input never reaches the engine. -/
def submit_stage (stage user_input : String) (use_ai : Bool)
    (client : Option (Except String String)) (now : Nat) (s : Session) : StageResult :=
  if py_strip user_input = "" then
    { session := s, suggestion := none, gateway_called := false }
  else
    process_stage_input stage user_input use_ai client now s

/-- generate_final_optimized_prompt: with a client present, stores the
string returned by generate_final_prompt as final_prompt and appends a
final_prompt_generated history entry; with no client, shows an error and
leaves the session untouched. -/
def generate_final_optimized_prompt (client : Option (Except String String))
    (now : Nat) (s : Session) : Session :=
  match client with
  | some gw =>
    let fp := generate_final_prompt gw
    { s with
      final_prompt := some fp
      iteration_history := s.iteration_history ++
        [{ timestamp := now
           action := "final_prompt_generated"
           stage := none
           data := [("final_prompt", fp)] }] }
  | none => s

/-- advance_to_next_stage: move one stage forward when not at the last
stage, otherwise trigger final-prompt generation. -/
def advance_to_next_stage (client : Option (Except String String))
    (now : Nat) (s : Session) : Session :=
  let stages := stageList
  let current_index := stages.indexOf s.current_stage
  if current_index < stages.length - 1 then
    { s with current_stage := stages.getD (current_index + 1) s.current_stage }
  else
    generate_final_optimized_prompt client now s

/-- The confirmed Reset Session branch of render_session_controls: sets
active to false and clears stages_data and iteration_history, touching no
other field. -/
def reset_session (s : Session) : Session :=
  { s with active := false, stages_data := [], iteration_history := [] }

/-- The Start New Enhancement button of render_final_results: sets active
to false and clears final_prompt, touching no other field. -/
def start_new_enhancement (s : Session) : Session :=
  { s with active := false, final_prompt := none }

/-- The record built by export_session_data. -/
structure ExportData where
  export_timestamp : Nat
  session_duration_minutes : Rat
  total_iterations : Nat
  stages_completed : Nat
  initial_idea : String
  final_prompt : String
  refinement_stages : List (String × String)
  iteration_history : List HistoryEntry
  deriving Repr, DecidableEq

/-- export_session_data: a pure read of the session producing the export
record; duration is zero when start_time is unset. -/
def export_session_data (now : Nat) (s : Session) : ExportData :=
  { export_timestamp := now
    session_duration_minutes :=
      match s.start_time with
      | some t => ((now : Rat) - (t : Rat)) / 60
      | none => 0
    total_iterations := s.iteration_history.length
    stages_completed := (s.stages_data.filter (fun p => p.1 ≠ "initial_idea")).length
    initial_idea := (dictGet s.stages_data "initial_idea").getD ""
    final_prompt := s.final_prompt.getD ""
    refinement_stages := s.stages_data.filter (fun p => p.1 ≠ "initial_idea")
    iteration_history := s.iteration_history }

/-- Reply of one client.operations.get call inside the polling loop of
generate_video: either a refreshed operation carrying a done flag and an
optional error field, or a raised exception. -/
inductive PollReply where
  | replied (done : Bool) (err : Option String)
  | exn (msg : String)
  deriving Repr, DecidableEq

/-- How the polling section of generate_video ends: the while loop exits
normally with the final done flag and poll count, or an early return fires
on an operation error or on a polling exception, each remembering how many
get calls had succeeded so far. -/
inductive LoopExit where
  | exited (opDone : Bool) (pollCount : Nat)
  | opError (msg : String) (pollCount : Nat)
  | pollError (msg : String) (pollCount : Nat)
  deriving Repr, DecidableEq

/-- What generate_video reports after the polling section. The four error
constructors carry the distinct error strings of the source; completed
marks reaching the response-processing section. -/
inductive VideoOutcome where
  | opFailure (msg : String)
  | pollFailure (msg : String)
  | timeout
  | notDone
  | completed
  deriving Repr, DecidableEq

/-- The while loop of generate_video: while the operation is not done and
the poll count is below maxPolls, sleep, refresh the operation (the poll
numbered pollCount + 1), increment the count on a successful refresh, and
return early on an error field or on an exception (the exception fires
before the count is incremented). The fuel argument only forces
termination; called with fuel at least maxPolls minus the count it never
runs out before the loop condition stops the recursion. -/
def pollLoop (status : Nat → PollReply) (maxPolls : Nat) :
    Nat → Bool → Nat → LoopExit
  | 0, opDone, pollCount => LoopExit.exited opDone pollCount
  | fuel + 1, opDone, pollCount =>
    if opDone ∨ maxPolls ≤ pollCount then
      LoopExit.exited opDone pollCount
    else
      match status (pollCount + 1) with
      | PollReply.exn e => LoopExit.pollError e pollCount
      | PollReply.replied _ (some e) => LoopExit.opError e (pollCount + 1)
      | PollReply.replied d none => pollLoop status maxPolls fuel d (pollCount + 1)

/-- Number of client.operations.get calls the exited polling section had
issued: early exceptions count the failed call too. -/
def pollAttempts : LoopExit → Nat
  | LoopExit.exited _ c => c
  | LoopExit.opError _ c => c
  | LoopExit.pollError _ c => c + 1

/-- The polling section of generate_video with its fixed ceiling:
max_polls = 60 status polls at a fixed 20 second interval, starting from
poll count zero. -/
def generate_video_poll (status : Nat → PollReply) (initDone : Bool) : LoopExit :=
  pollLoop status 60 60 initDone 0

/-- The outcome classification after the loop, in source order: operation
errors and polling exceptions return early; then the timeout check
(poll_count at the ceiling) fires before the done flag is consulted; then
a not-done exit; otherwise control reaches the response-processing
section. -/
def generate_video_outcome (status : Nat → PollReply) (initDone : Bool) : VideoOutcome :=
  match generate_video_poll status initDone with
  | LoopExit.pollError e _ => VideoOutcome.pollFailure e
  | LoopExit.opError e _ => VideoOutcome.opFailure e
  | LoopExit.exited d c =>
    if 60 ≤ c then VideoOutcome.timeout
    else if d then VideoOutcome.completed
    else VideoOutcome.notDone

/-- The exact strings generate_video returns for each outcome; the
completed case goes on to the response-processing section instead of
returning one of these. -/
def outcome_message : VideoOutcome → String
  | VideoOutcome.opFailure e => "Error: Video generation failed - " ++ e
  | VideoOutcome.pollFailure e => "Error: Failed to check generation status - " ++ e
  | VideoOutcome.timeout => "Error: Video generation timed out after 20 minutes"
  | VideoOutcome.notDone => "Error: Video generation did not complete"
  | VideoOutcome.completed => ""

/-- A status oracle under which the operation never completes. -/
def statusRunning : Nat → PollReply := fun _ => PollReply.replied false none

/-- A status oracle under which the operation completes exactly on the
sixtieth successful poll. -/
def statusDoneAt60 : Nat → PollReply := fun n => PollReply.replied (n == 60) none

/-- Nat-keyed dict bump d[k] = d.get(k, 0) + 1 : update in place if the
key exists, otherwise append at the end. -/
def bumpCount (d : List (Nat × Nat)) (k : Nat) : List (Nat × Nat) :=
  if d.any (fun p => p.1 = k) then
    d.map (fun p => if p.1 = k then (p.1, p.2 + 1) else p)
  else
    d ++ [(k, 1)]

/-- Nat-keyed dict read d.get(k, 0). -/
def countGet (d : List (Nat × Nat)) (k : Nat) : Nat :=
  ((d.find? (fun p => p.1 = k)).map (fun p => p.2)).getD 0

/-- The on-disk counter dictionary of global_counter.py. Every field that
the code may address by a fixed key is an Option: none models the key
being absent from the loaded record. The dynamic videos_Ns keys are the
duration_counters association list (a key present there models the
corresponding videos_Ns dict key being present); video_durations entries
pair a duration with its generated_at timestamp. -/
structure CounterStore where
  videos_generated : Option Nat
  images_generated : Option Nat
  chat_messages : Option Nat
  enhanced_prompts : Option Nat
  first_used : Option Nat
  last_updated : Option Nat
  video_durations : Option (List (Nat × Nat))
  duration_counters : List (Nat × Nat)
  total_video_duration_seconds : Option Nat
  deriving Repr, DecidableEq

/-- The all-zero default record of GlobalCounter, with its duration
counters for 5, 8, 6 and 7 seconds in the insertion order of the dict
literal. -/
def _get_default_counters (now : Nat) : CounterStore :=
  { videos_generated := some 0
    images_generated := some 0
    chat_messages := some 0
    enhanced_prompts := some 0
    first_used := some now
    last_updated := some now
    video_durations := some []
    duration_counters := [(5, 0), (8, 0), (6, 0), (7, 0)]
    total_video_duration_seconds := some 0 }

/-- Ensure the videos_6s and then the videos_7s key exists, defaulting
each to zero, as the load routine does. -/
def ensure_6s_7s (d : List (Nat × Nat)) : List (Nat × Nat) :=
  let d6 := if d.any (fun p => p.1 = 6) then d else d ++ [(6, 0)]
  if d6.any (fun p => p.1 = 7) then d6 else d6 ++ [(7, 0)]

/-- _load_counters: a missing or unparseable file (modelled as none)
yields the all-zero defaults; a parsed record has exactly the four keys
enhanced_prompts, videos_6s, videos_7s and total_video_duration_seconds
default-initialized when absent, and every other field is returned as it
was found. -/
def _load_counters (file : Option CounterStore) (now : Nat) : CounterStore :=
  match file with
  | none => _get_default_counters now
  | some data =>
    { data with
      enhanced_prompts := some (data.enhanced_prompts.getD 0)
      duration_counters := ensure_6s_7s data.duration_counters
      total_video_duration_seconds := some (data.total_video_duration_seconds.getD 0) }

/-- increment_video_count: the += on videos_generated and the append on
video_durations address the keys directly and raise KeyError when the key
is absent; the total and per-duration updates use get with a default. On
success returns the updated store and the new videos_generated value. -/
def increment_video_count (duration : Nat) (now : Nat) (c : CounterStore) :
    Except String (CounterStore × Nat) :=
  match c.videos_generated with
  | none => Except.error "KeyError: videos_generated"
  | some vg =>
    match c.video_durations with
    | none => Except.error "KeyError: video_durations"
    | some vds =>
      let c1 : CounterStore :=
        { c with
          videos_generated := some (vg + 1)
          video_durations := some (vds ++ [(duration, now)])
          total_video_duration_seconds :=
            some (c.total_video_duration_seconds.getD 0 + duration)
          duration_counters := bumpCount c.duration_counters duration
          last_updated := some now }
      Except.ok (c1, vg + 1)

/-- get_video_count: read with default zero. -/
def get_video_count (c : CounterStore) : Nat := c.videos_generated.getD 0

/-- get_video_durations: read with default empty list. -/
def get_video_durations (c : CounterStore) : List (Nat × Nat) :=
  c.video_durations.getD []

/-- get_total_video_duration: the stored running total, self-healed to the
total recomputed from the duration event log when the two disagree. -/
def get_total_video_duration (c : CounterStore) : Nat :=
  let stored := c.total_video_duration_seconds.getD 0
  let calculated := ((get_video_durations c).map (fun p => p.1)).sum
  if stored ≠ calculated then calculated else stored

/-- get_average_video_duration: zero with no recorded durations, else the
reconciled total divided by the number of events. -/
def get_average_video_duration (c : CounterStore) : Rat :=
  let durations := get_video_durations c
  if durations.length = 0 then 0
  else (get_total_video_duration c : Rat) / (durations.length : Rat)

/-- _get_duration_breakdown: histogram of the duration event log, built
left to right with dict get-default-plus-one writes. -/
def _get_duration_breakdown (c : CounterStore) : List (Nat × Nat) :=
  (get_video_durations c).foldl (fun acc p => bumpCount acc p.1) []

/-- The statistics record returned by get_statistics. -/
structure Stats where
  total_videos : Nat
  total_images : Nat
  total_chats : Nat
  total_enhanced_prompts : Nat
  total_video_duration_seconds : Nat
  videos_5s : Nat
  videos_8s : Nat
  videos_6s : Nat
  videos_7s : Nat
  average_video_duration_seconds : Rat
  video_count_by_duration : List (Nat × Nat)
  first_used : Option Nat
  last_updated : Option Nat
  deriving Repr, DecidableEq

/-- get_statistics: the comprehensive read-only statistics record. -/
def get_statistics (c : CounterStore) : Stats :=
  { total_videos := get_video_count c
    total_images := c.images_generated.getD 0
    total_chats := c.chat_messages.getD 0
    total_enhanced_prompts := c.enhanced_prompts.getD 0
    total_video_duration_seconds := get_total_video_duration c
    videos_5s := countGet c.duration_counters 5
    videos_8s := countGet c.duration_counters 8
    videos_6s := countGet c.duration_counters 6
    videos_7s := countGet c.duration_counters 7
    average_video_duration_seconds := get_average_video_duration c
    video_count_by_duration := _get_duration_breakdown c
    first_used := c.first_used
    last_updated := c.last_updated }

/-- A concrete completed-wizard session: active, all five stages answered,
one history entry, no final prompt yet. -/
def c1_session : Session :=
  { active := true
    current_stage := "polish"
    stages_data := [("initial_idea", "idea"), ("concept", "c"), ("mood", "m"),
      ("subjects", "sub"), ("visual", "v"), ("polish", "p")]
    iteration_history := [{ timestamp := 0
                            action := "session_started"
                            stage := none
                            data := [("initial_idea", "idea")] }]
    start_time := some 0
    final_prompt := none }

/-- A concrete session right after start_enhancement_flow. -/
def sessionAfterStart : Session :=
  start_enhancement_flow "A cat on a skateboard" 0 initSession

/-- The session after one stage submission without an AI suggestion:
active with two history entries. -/
def c6_session : Session :=
  (process_stage_input "concept" "cinematic, park setting" false none 1
    sessionAfterStart).session

/-- A well-formed on-disk counter record that is missing most fields,
among them videos_generated and video_durations. -/
def c8_record : CounterStore :=
  { videos_generated := none
    images_generated := none
    chat_messages := none
    enhanced_prompts := some 2
    first_used := none
    last_updated := none
    video_durations := none
    duration_counters := []
    total_video_duration_seconds := none }

/-- The ledger store after recording one 5 second video at time 1,
starting from the all-zero defaults created at time 0. -/
def c7_store1 : CounterStore :=
  { videos_generated := some 1
    images_generated := some 0
    chat_messages := some 0
    enhanced_prompts := some 0
    first_used := some 0
    last_updated := some 1
    video_durations := some [(5, 1)]
    duration_counters := [(5, 1), (8, 0), (6, 0), (7, 0)]
    total_video_duration_seconds := some 5 }

/-- The ledger store after additionally recording one 8 second video at
time 2. -/
def c7_store2 : CounterStore :=
  { videos_generated := some 2
    images_generated := some 0
    chat_messages := some 0
    enhanced_prompts := some 0
    first_used := some 0
    last_updated := some 2
    video_durations := some [(5, 1), (8, 2)]
    duration_counters := [(5, 1), (8, 1), (6, 0), (7, 0)]
    total_video_duration_seconds := some 13 }

/-- Claim C2: for every initial idea that is non-empty after trimming,
start yields an active session at the first stage (concept), stages_data
holding exactly the initial_idea key, exactly one history entry with
action session_started, no final prompt, and a set start time. -/
theorem C2_start_establishes_fresh_session (idea : String) (now : Nat) (s : Session)
    (h : py_strip idea ≠ "") :
    (start_enhancement_flow idea now s).active = true ∧
    (start_enhancement_flow idea now s).current_stage = "concept" ∧
    stageList.head? = some "concept" ∧
    (start_enhancement_flow idea now s).stages_data = [("initial_idea", idea)] ∧
    (start_enhancement_flow idea now s).iteration_history =
      [{ timestamp := now
         action := "session_started"
         stage := none
         data := [("initial_idea", idea)] }] ∧
    ((start_enhancement_flow idea now s).iteration_history.filter
      (fun e => e.action == "session_started")).length = 1 ∧
    (start_enhancement_flow idea now s).final_prompt = none ∧
    (start_enhancement_flow idea now s).start_time = some now := by
  refine ⟨rfl, rfl, rfl, rfl, rfl, ?_, rfl, rfl⟩
  simp [start_enhancement_flow]

/-- Witness for C2 at a concrete idea. -/
theorem C2_start_establishes_fresh_session_witness :
    py_strip "A cat on a skateboard" ≠ "" ∧
    (start_enhancement_flow "A cat on a skateboard" 0 initSession).active = true ∧
    (start_enhancement_flow "A cat on a skateboard" 0 initSession).stages_data =
      [("initial_idea", "A cat on a skateboard")] :=
  ⟨by decide,
   (C2_start_establishes_fresh_session "A cat on a skateboard" 0 initSession (by decide)).1,
   (C2_start_establishes_fresh_session "A cat on a skateboard" 0 initSession
     (by decide)).2.2.2.1⟩

/-- Claim C3: a whitespace-only input is rejected by the submit
interaction with no state mutation, no history entry and no gateway
call. -/
theorem C3_whitespace_input_rejected (stage user_input : String) (use_ai : Bool)
    (client : Option (Except String String)) (now : Nat) (s : Session)
    (h : py_strip user_input = "") :
    submit_stage stage user_input use_ai client now s =
      { session := s, suggestion := none, gateway_called := false } := by
  simp [submit_stage, h]

/-- Witness for C3 at a concrete whitespace input. -/
theorem C3_whitespace_input_rejected_witness :
    py_strip "   " = "" ∧
    submit_stage "concept" "   " true (some (Except.ok "text")) 5 c1_session =
      { session := c1_session, suggestion := none, gateway_called := false } :=
  ⟨by decide,
   C3_whitespace_input_rejected "concept" "   " true (some (Except.ok "text")) 5
     c1_session (by decide)⟩

/-- Claim C5: reset sets active to false, clears exactly stages_data and
iteration_history, and leaves current_stage, start_time and final_prompt
unchanged. -/
theorem C5_reset_clears_exactly_data_fields (s : Session) :
    (reset_session s).active = false ∧
    (reset_session s).stages_data = [] ∧
    (reset_session s).iteration_history = [] ∧
    (reset_session s).current_stage = s.current_stage ∧
    (reset_session s).start_time = s.start_time ∧
    (reset_session s).final_prompt = s.final_prompt :=
  ⟨rfl, rfl, rfl, rfl, rfl, rfl⟩

/-- Claim C10: the Start New Enhancement transition sets active to false
and clears final_prompt while leaving stages_data, iteration_history,
current_stage and start_time in place, unlike reset which clears the two
data fields but leaves final_prompt. -/
theorem C10_start_new_enhancement_frame (s : Session) :
    (start_new_enhancement s).active = false ∧
    (start_new_enhancement s).final_prompt = none ∧
    (start_new_enhancement s).stages_data = s.stages_data ∧
    (start_new_enhancement s).iteration_history = s.iteration_history ∧
    (start_new_enhancement s).current_stage = s.current_stage ∧
    (start_new_enhancement s).start_time = s.start_time ∧
    (reset_session s).stages_data = [] ∧
    (reset_session s).iteration_history = [] ∧
    (reset_session s).final_prompt = s.final_prompt :=
  ⟨rfl, rfl, rfl, rfl, rfl, rfl, rfl, rfl, rfl⟩

/-- Counterexample to claim C1: on a gateway failure with a client
present, synthesis stores the error-carrying string as final_prompt, so
final_prompt does not stay unset. -/
theorem C1_counterexample :
    c1_session.final_prompt = none ∧
    c1_session.active = true ∧
    (generate_final_optimized_prompt (some (Except.error "upstream failure")) 9
      c1_session).final_prompt = some "Error generating final prompt: upstream failure" ∧
    ¬ (generate_final_optimized_prompt (some (Except.error "upstream failure")) 9
      c1_session).final_prompt = none := by decide

/-- Claim C1 as amended: with no client, synthesis reports an error and
leaves the session fully unchanged; with a client whose call fails, the
error text is stored as final_prompt (so the session reaches the
Complete marker), a final_prompt_generated history entry is appended, and
current_stage, stages_data and active are unchanged. -/
theorem C1_amended_synthesize_failure (s : Session) (now : Nat) (e : String) :
    generate_final_optimized_prompt none now s = s ∧
    (generate_final_optimized_prompt (some (Except.error e)) now s).final_prompt =
      some ("Error generating final prompt: " ++ e) ∧
    (generate_final_optimized_prompt (some (Except.error e)) now s).iteration_history =
      s.iteration_history ++
        [{ timestamp := now
           action := "final_prompt_generated"
           stage := none
           data := [("final_prompt", "Error generating final prompt: " ++ e)] }] ∧
    (generate_final_optimized_prompt (some (Except.error e)) now s).current_stage =
      s.current_stage ∧
    (generate_final_optimized_prompt (some (Except.error e)) now s).stages_data =
      s.stages_data ∧
    (generate_final_optimized_prompt (some (Except.error e)) now s).active = s.active :=
  ⟨rfl, rfl, rfl, rfl, rfl, rfl⟩

/-- Counterexample to claim C4: a failed suggestion call appends an
ai_suggestion history entry carrying the error text, so the history grows
by two entries, not only by the stage_completed entry. -/
theorem C4_counterexample :
    sessionAfterStart.iteration_history.length = 1 ∧
    (process_stage_input "concept" "a park scene" true (some (Except.error "api down")) 3
      sessionAfterStart).session.iteration_history.length = 3 ∧
    ((process_stage_input "concept" "a park scene" true (some (Except.error "api down")) 3
      sessionAfterStart).session.iteration_history.getLast?).map (fun e => e.action) =
      some "ai_suggestion" ∧
    ¬ (process_stage_input "concept" "a park scene" true (some (Except.error "api down")) 3
      sessionAfterStart).session.iteration_history.length = 2 := by decide

/-- Claim C4 as amended: a gateway failure during a stage submission is
surfaced as an error-carrying suggestion value, stages_data receives the
user input and current_stage is unchanged, and the history receives two
entries: the stage_completed entry for the input and an ai_suggestion
entry whose payload is the error text. -/
theorem C4_amended_suggestion_failure (stage input e : String) (now : Nat) (s : Session) :
    (process_stage_input stage input true (some (Except.error e)) now s).suggestion =
      some ("Error getting suggestion: " ++ e) ∧
    (process_stage_input stage input true (some (Except.error e)) now s).gateway_called =
      true ∧
    (process_stage_input stage input true (some (Except.error e)) now s).session.current_stage =
      s.current_stage ∧
    (process_stage_input stage input true (some (Except.error e)) now s).session.stages_data =
      dictSet s.stages_data stage input ∧
    (process_stage_input stage input true (some (Except.error e)) now s).session.iteration_history =
      s.iteration_history ++
        [{ timestamp := now
           action := "stage_completed"
           stage := some stage
           data := [("user_input", input)] },
         { timestamp := now
           action := "ai_suggestion"
           stage := some stage
           data := [("suggestion", "Error getting suggestion: " ++ e)] }] := by
  refine ⟨rfl, rfl, rfl, rfl, ?_⟩
  simp [process_stage_input, get_enhancement_suggestion]

/-- Counterexample to claim C6: start is invocable on an already active
session (the template button renders unconditionally) and replaces the
history with a single fresh entry, strictly shortening it. -/
theorem C6_counterexample :
    c6_session.active = true ∧
    c6_session.iteration_history.length = 2 ∧
    (start_enhancement_flow "second idea" 2 c6_session).iteration_history.length = 1 ∧
    (start_enhancement_flow "second idea" 2 c6_session).iteration_history.length <
      c6_session.iteration_history.length := by decide

/-- Claim C6 as amended: stage submission, advance, synthesis and export
only ever extend the history at its end (existing entries are preserved
as a prefix) or leave it unchanged; start instead replaces the history
with a single fresh session_started entry, which can shorten it when
invoked on an already active session. -/
theorem C6_amended_history_append_only :
    (∀ stage input use_ai client now s, ∃ t,
      (process_stage_input stage input use_ai client now s).session.iteration_history =
        s.iteration_history ++ t) ∧
    (∀ client now s, ∃ t,
      (advance_to_next_stage client now s).iteration_history =
        s.iteration_history ++ t) ∧
    (∀ client now s, ∃ t,
      (generate_final_optimized_prompt client now s).iteration_history =
        s.iteration_history ++ t) ∧
    (∀ now s, (export_session_data now s).iteration_history = s.iteration_history) ∧
    (∀ idea now s, (start_enhancement_flow idea now s).iteration_history =
      [{ timestamp := now
         action := "session_started"
         stage := none
         data := [("initial_idea", idea)] }]) := by
  refine ⟨?_, ?_, ?_, fun now s => rfl, fun idea now s => rfl⟩
  · intro stage input use_ai client now s
    cases use_ai <;> cases client <;>
      first
        | exact ⟨_, rfl⟩
        | exact ⟨_, List.append_assoc _ _ _⟩
  · intro client now s
    unfold advance_to_next_stage
    dsimp only
    split
    · exact ⟨[], (List.append_nil _).symm⟩
    · cases client
      · exact ⟨[], (List.append_nil _).symm⟩
      · exact ⟨_, rfl⟩
  · intro client now s
    cases client
    · exact ⟨[], (List.append_nil _).symm⟩
    · exact ⟨_, rfl⟩

/-- Claim C7: from the all-zero defaults, incrementing a 5 second and then
an 8 second video yields counts 1 and 2, per-duration counters of one
each, total duration 13, average 13 / 2 = 6.5, and the histogram mapping
5 to 1 and 8 to 1. -/
theorem C7_ledger_two_videos :
    ∃ s1 s2 : CounterStore,
      increment_video_count 5 1 (_get_default_counters 0) = Except.ok (s1, 1) ∧
      increment_video_count 8 2 s1 = Except.ok (s2, 2) ∧
      (get_statistics s2).videos_5s = 1 ∧
      (get_statistics s2).videos_8s = 1 ∧
      (get_statistics s2).total_videos = 2 ∧
      (get_statistics s2).average_video_duration_seconds = 13 / 2 ∧
      (get_statistics s2).total_video_duration_seconds = 13 ∧
      (get_statistics s2).video_count_by_duration = [(5, 1), (8, 1)] := by
  refine ⟨c7_store1, c7_store2, rfl, rfl, rfl, rfl, rfl, ?_, rfl, rfl⟩
  show get_average_video_duration c7_store2 = 13 / 2
  simp [get_average_video_duration, get_total_video_duration, get_video_durations,
    c7_store2]

/-- Claim C8, evaluated at the failing input: a missing or unparseable
record loads as the all-zero defaults, but a well-formed record missing
videos_generated is loaded with that field still absent, and the next
increment_video_count fails with a KeyError instead of succeeding. -/
theorem C8_missing_field_increment_fails :
    _load_counters none 0 = _get_default_counters 0 ∧
    (_load_counters (some c8_record) 0).enhanced_prompts = some 2 ∧
    (_load_counters (some c8_record) 0).videos_generated = none ∧
    increment_video_count 5 1 (_load_counters (some c8_record) 0) =
      Except.error "KeyError: videos_generated" :=
  ⟨rfl, rfl, rfl, rfl⟩

/-- Helper: starting from any poll count at most sixty, the polling loop
with ceiling sixty never issues more than sixty status polls. -/
theorem pollLoop_attempts_bound (status : Nat → PollReply) :
    ∀ (fuel : Nat) (d : Bool) (c : Nat), c ≤ 60 →
      pollAttempts (pollLoop status 60 fuel d c) ≤ 60 := by
  intro fuel
  induction fuel with
  | zero =>
    intro d c hc
    simpa [pollLoop, pollAttempts] using hc
  | succ n ih =>
    intro d c hc
    by_cases hstop : d = true ∨ 60 ≤ c
    · simp only [pollLoop, if_pos hstop, pollAttempts]
      exact hc
    · have hlt : c < 60 := by
        rcases Nat.lt_or_ge c 60 with hx | hx
        · exact hx
        · exact absurd (Or.inr hx) hstop
      simp only [pollLoop, if_neg hstop]
      cases hrep : status (c + 1) with
      | exn e => exact hlt
      | replied d2 err =>
        cases err with
        | none => exact ih d2 (c + 1) hlt
        | some e => exact hlt

/-- Helper: the loop exit of generate_video carries a poll count of at
most sixty. -/
theorem generate_video_poll_count_le (status : Nat → PollReply) (initDone : Bool) :
    pollAttempts (generate_video_poll status initDone) ≤ 60 :=
  pollLoop_attempts_bound status 60 initDone 0 (Nat.zero_le 60)

/-- Counterexample to claim C9: when the operation completes exactly on
the sixtieth successful poll (within the sixty-poll ceiling), the code
still reports the timeout error rather than proceeding. -/
theorem C9_counterexample :
    generate_video_poll statusDoneAt60 false = LoopExit.exited true 60 ∧
    generate_video_outcome statusDoneAt60 false = VideoOutcome.timeout ∧
    ¬ generate_video_outcome statusDoneAt60 false = VideoOutcome.completed := by
  decide

/-- Claim C9 as amended: the loop performs at most sixty status polls; the
timeout outcome is reported exactly when the loop exits with the poll
count at the ceiling, regardless of the final done flag; an operation
already done when the loop exits below the ceiling reaches the
response-processing section; and the timeout string is distinct in shape
from the generation-failure string. -/
theorem C9_amended_polling (status : Nat → PollReply) (initDone : Bool) :
    pollAttempts (generate_video_poll status initDone) ≤ 60 ∧
    (generate_video_outcome status initDone = VideoOutcome.timeout ↔
      ∃ d, generate_video_poll status initDone = LoopExit.exited d 60) ∧
    (∀ c, c < 60 → generate_video_poll status initDone = LoopExit.exited true c →
      generate_video_outcome status initDone = VideoOutcome.completed) ∧
    outcome_message VideoOutcome.timeout =
      "Error: Video generation timed out after 20 minutes" ∧
    (∀ e, outcome_message (VideoOutcome.opFailure e) =
      "Error: Video generation failed - " ++ e) := by
  refine ⟨generate_video_poll_count_le status initDone, ?_, ?_, rfl, fun e => rfl⟩
  · constructor
    · intro htimeout
      rw [generate_video_outcome] at htimeout
      cases hpoll : generate_video_poll status initDone with
      | pollError e c =>
        rw [hpoll] at htimeout
        simp at htimeout
      | opError e c =>
        rw [hpoll] at htimeout
        simp at htimeout
      | exited d c =>
        rw [hpoll] at htimeout
        have hle : c ≤ 60 := by
          have hb := generate_video_poll_count_le status initDone
          rw [hpoll] at hb
          exact hb
        by_cases hc : 60 ≤ c
        · refine ⟨d, ?_⟩
          rw [Nat.le_antisymm hle hc]
        · dsimp only at htimeout
          rw [if_neg hc] at htimeout
          cases d <;> simp at htimeout
    · rintro ⟨d, hpoll⟩
      rw [generate_video_outcome, hpoll]
      simp
  · intro c hc hpoll
    rw [generate_video_outcome, hpoll]
    simp [Nat.not_le_of_lt hc]

/-- Witness for C9 as amended, at a status oracle under which the
operation never completes: sixty polls and the timeout outcome. -/
theorem C9_amended_polling_witness :
    pollAttempts (generate_video_poll statusRunning false) ≤ 60 ∧
    generate_video_outcome statusRunning false = VideoOutcome.timeout :=
  ⟨(C9_amended_polling statusRunning false).1,
   (C9_amended_polling statusRunning false).2.1.mpr ⟨false, by decide⟩⟩

end GenBoard
